import Mathlib

/-!
Shallow embedding of `clipboard_manager.py` (the sequence state machine, the
mapping index, the chord registrar and the dispatcher), together with theorems
settling the behavioural claims about it.

Modelling conventions:
* Python's global `state` dict becomes the structure `SeqState` (fields
  `status`, `digit`, `last_time`); the read-only `state['mapping']` entry is
  passed to `on_key_event` as an explicit argument, since it is written once at
  startup and only read afterwards.
* `time.time()` is modelled by passing the current time `now : ℚ` explicitly.
* A Python dict over string keys is an association list built with
  replace-in-place insertion (`dictInsert`), matching dict assignment
  semantics (last write wins, insertion order preserved).
* Side effects are returned as data: `on_key_event` returns, besides the new
  state, the path with which `copy_file_content` was invoked (or `none`);
  `copy_file_content` returns the content handed to the clipboard and the log
  line; `register_hotkeys` returns the list of (chord string, action)
  registrations it performs.
-/

/-- Python `str.lower()` (ASCII case mapping, which covers every key name and
file name appearing in the program). -/
def pyLower (s : String) : String := ⟨s.data.map Char.toLower⟩

/-- Python `str.isdigit()`: non-empty and every character a digit. -/
def pyIsDigit (s : String) : Bool := !s.data.isEmpty && s.data.all Char.isDigit

/-- Python `s.startswith(t)`. -/
def pyStartsWith (s t : String) : Bool := t.data.isPrefixOf s.data

/-- Python `s.endswith(t)`. -/
def pyEndsWith (s t : String) : Bool := t.data.isSuffixOf s.data

/-- Python `s[n:]`. -/
def pyDrop (s : String) (n : Nat) : String := ⟨s.data.drop n⟩

/-- Python `s[:n]`. -/
def pyTake (s : String) (n : Nat) : String := ⟨s.data.take n⟩

/-- Drop the last `n` characters of `s`. -/
def pyDropRight (s : String) (n : Nat) : String :=
  ⟨s.data.take (s.data.length - n)⟩

/-- Python f-string interpolation of a possibly-`None` value. -/
def pyStrOpt : Option String → String
  | some s => s
  | none => "None"

/-- `os.path.join` as used by the program (POSIX-style separator). -/
def pathJoin (a b : String) : String := a ++ "/" ++ b

/-- `os.path.basename` for the joined paths the program builds: the suffix
after the last separator. -/
def basename (p : String) : String :=
  ⟨p.data.foldl (fun acc c => if c = '/' then [] else acc ++ [c]) []⟩

/-- Assignment `mapping[key] = value` on a Python dict modelled as an
association list: replace in place if the key is present, else append. -/
def dictInsert (m : List (String × String)) (k v : String) :
    List (String × String) :=
  if m.any (fun p => p.1 == k) then
    m.map (fun p => if p.1 == k then (k, v) else p)
  else m ++ [(k, v)]

/-- Dict lookup `mapping[key]` / membership `key in mapping`. -/
def dictLookup (m : List (String × String)) (k : String) : Option String :=
  (m.find? (fun p => p.1 == k)).map (fun p => p.2)

/-- The three values of `state['status']`. -/
inductive Status
  | idle
  | waitDigit
  | waitChar
deriving DecidableEq, Repr

/-- The mutable fields of the global `state` dict (source lines 19-24),
minus the read-only `mapping` entry. -/
structure SeqState where
  status : Status
  digit : Option String
  last_time : ℚ
deriving DecidableEq, Repr

/-- `TIMEOUT = 3.0` (source line 26). -/
def TIMEOUT : ℚ := 3

/-- The initial global state: `status 'IDLE'`, `digit None`, `last_time 0`. -/
def initState : SeqState := ⟨Status.idle, none, 0⟩

/-- `on_ctrl_c` (source lines 82-88): reset to WAIT_DIGIT, stamp the time,
clear the pending digit. -/
def on_ctrl_c (now : ℚ) (s : SeqState) : SeqState :=
  { s with status := Status.waitDigit, last_time := now, digit := none }

/-- A key event delivered by the `keyboard` hook: an event type string
(`'down'` / `'up'`) and a key name. -/
structure KeyEvent where
  event_type : String
  name : String
deriving DecidableEq, Repr

/-- The lazy timeout check at the top of `on_key_event` (source lines 96-100):
if the status is not IDLE and more than `TIMEOUT` seconds have passed since
`last_time`, force IDLE and clear the pending digit. -/
def timeout_check (now : ℚ) (s : SeqState) : SeqState :=
  if s.status ≠ Status.idle ∧ now - s.last_time > TIMEOUT then
    { s with status := Status.idle, digit := none }
  else s

/-- The status dispatch of `on_key_event` (source lines 102-139), applied after
the timeout check.  Returns the new state and the path passed to
`copy_file_content` when a sequence completes with a mapped code. -/
def machine_step (mapping : List (String × String)) (now : ℚ) (ev : KeyEvent)
    (s : SeqState) : SeqState × Option String :=
  if s.status = Status.waitDigit then
    if ev.name ∈ ["ctrl", "right ctrl", "left ctrl", "c"] then (s, none)
    else if pyIsDigit ev.name then
      ({ s with digit := some ev.name, status := Status.waitChar,
                last_time := now }, none)
    else
      ({ s with status := Status.idle }, none)
  else if s.status = Status.waitChar then
    if ev.name ∈ ["ctrl", "right ctrl", "left ctrl"] then (s, none)
    else if ev.name.length = 1 then
      let potential_key := pyStrOpt s.digit ++ pyLower ev.name
      ({ s with status := Status.idle, digit := none },
       dictLookup mapping potential_key)
    else
      ({ s with status := Status.idle }, none)
  else (s, none)

/-- `on_key_event` (source lines 90-139): ignore non-down events, run the
timeout check, then the state machine. -/
def on_key_event (mapping : List (String × String)) (now : ℚ) (ev : KeyEvent)
    (s : SeqState) : SeqState × Option String :=
  if ev.event_type ≠ "down" then (s, none)
  else machine_step mapping now ev (timeout_check now s)

/-- A directory entry of `BASE_DIR` as seen by `os.listdir`: its name, whether
it is a directory, and (when it is) the base names of the files it contains. -/
structure DirEntry where
  name : String
  isDir : Bool
  files : List String
deriving DecidableEq, Repr

/-- `glob.glob(os.path.join(dir_path, "*.txt"))` restricted to the file names
of one directory: keeps names ending in `.txt`, excluding hidden files (a
leading `*` in a glob pattern does not match a leading dot). -/
def globTxt (files : List String) : List String :=
  files.filter (fun f => pyEndsWith f ".txt" && !pyStartsWith f ".")

/-- Body of the inner `for filepath in txt_files` loop of `load_files_mapping`
(source lines 69-79): strip the extension (on the glob-filtered names
`os.path.splitext` always splits off the final `.txt`); if the base name
starts with the directory digit and the remainder is non-empty, insert the key
`digit ++ lowercased remainder`, mapped to the file's path. -/
def addFile (baseDir digit : String) (mapping : List (String × String))
    (fn : String) : List (String × String) :=
  let name := pyDropRight fn 4
  if pyStartsWith name digit then
    let char_part := pyDrop name digit.length
    if char_part ≠ "" then
      dictInsert mapping (digit ++ pyLower char_part)
        (pathJoin (pathJoin baseDir digit) fn)
    else mapping
  else mapping

/-- Body of the outer `for item in os.listdir(BASE_DIR)` loop of
`load_files_mapping` (source lines 62-79): directories whose name is all
digits contribute their `*.txt` files, other entries are skipped. -/
def addDir (baseDir : String) (mapping : List (String × String))
    (item : DirEntry) : List (String × String) :=
  if item.isDir && pyIsDigit item.name then
    (globTxt item.files).foldl (addFile baseDir item.name) mapping
  else mapping

/-- `load_files_mapping` (source lines 57-80).  The file system is passed in
as the listing of `BASE_DIR`. -/
def load_files_mapping (baseDir : String) (entries : List DirEntry) :
    List (String × String) :=
  entries.foldl (addDir baseDir) []

/-- The two kinds of callback `register_hotkeys` binds. -/
inductive HotkeyAction
  | copyFile (path : String)
  | ctrlCReset
deriving DecidableEq, Repr

/-- `register_hotkeys` (source lines 141-170) as the list of registrations it
performs, in order: for every mapping entry a simultaneous chord built from
`key[0]` and `key[1:]` (every key the index produces is non-empty, so the
Python indexing never faults), then the standing `ctrl+c` trigger bound to
`on_ctrl_c`. -/
def register_hotkeys (mapping : List (String × String)) :
    List (String × HotkeyAction) :=
  (mapping.map (fun kv =>
    ("ctrl+c+" ++ pyTake kv.1 1 ++ "+" ++ pyDrop kv.1 1,
     HotkeyAction.copyFile kv.2)))
  ++ [("ctrl+c", HotkeyAction.ctrlCReset)]

/-- Outcome of one `copy_file_content` call: the global sequence state threaded
through unchanged (the source function never touches it), the content handed
to `pyperclip.copy` when the read succeeded, and the log line printed. -/
structure DispatchResult where
  state : SeqState
  clipboard : Option String
  log : String
deriving DecidableEq, Repr

/-- `copy_file_content` (source lines 47-55).  Reading the file is modelled by
`fs : String → Except String String` (`.error` is a raised `OSError` /
`UnicodeDecodeError` with its message).  Both branches return normally. -/
def copy_file_content (fs : String → Except String String) (st : SeqState)
    (filepath : String) : DispatchResult :=
  match fs filepath with
  | Except.ok content =>
      ⟨st, some content, "Copied content from " ++ basename filepath⟩
  | Except.error e =>
      ⟨st, none, "Failed to copy " ++ filepath ++ ": " ++ e⟩

/-- The names bound at module level of `clipboard_manager.py` before line 11
executes: exactly the imports of source lines 1-8 (`from PIL import Image,
ImageDraw` binds `Image` and `ImageDraw`).  `sys` is not among them, and `sys`
is not a Python builtin. -/
def module_imports : List String :=
  ["os", "glob", "keyboard", "pyperclip", "pystray", "Image", "ImageDraw",
   "time", "threading"]

/-- Evaluation of the module-level configuration `getattr(sys, 'frozen',
False)` (source line 11) under Python name resolution: the global name `sys`
evaluates only if some prior statement bound it; otherwise the lookup raises
`NameError` before `getattr` is ever called. -/
def startup_selects_base_dir : Except String Unit :=
  if module_imports.contains "sys" then Except.ok ()
  else Except.error "NameError: name 'sys' is not defined"

/-- States reachable from the initial state by any interleaving of
`on_ctrl_c` resets and `on_key_event` key deliveries, at arbitrary times, with
arbitrary events and an arbitrary mapping. -/
inductive Reachable : SeqState → Prop
  | init : Reachable initState
  | ctrl (now : ℚ) {s : SeqState} : Reachable s → Reachable (on_ctrl_c now s)
  | key (mapping : List (String × String)) (now : ℚ) (ev : KeyEvent)
      {s : SeqState} :
      Reachable s → Reachable (on_key_event mapping now ev s).1

/-- The single-numeral + single-lowercase-letter code shape that claim C6
ascribes to every mapping key.  Modelled from the spec: "a two-part
identifier, digit (single numeral) + char (single case-insensitive letter)",
case-normalised to lower case. -/
def spec_code_shape (k : String) : Bool :=
  match k.data with
  | [d, c] => d.isDigit && c.isAlpha && c.isLower
  | _ => false

/-- Shape every key inserted by `load_files_mapping` actually has: the owning
directory name (a non-empty all-digit string, possibly several numerals long)
followed by the lowercasing of a non-empty remainder of the base name. -/
def KeyOk (k : String) : Prop :=
  ∃ d c, k = d ++ pyLower c ∧ pyIsDigit d = true ∧ c ≠ ""

/- Helper lemmas about the individual steps, shared by the claim theorems. -/

theorem on_key_event_down (mapping : List (String × String)) (now : ℚ)
    (ev : KeyEvent) (s : SeqState) (h : ev.event_type = "down") :
    on_key_event mapping now ev s
      = machine_step mapping now ev (timeout_check now s) := by
  unfold on_key_event
  rw [if_neg]
  simp [h]

theorem timeout_check_fresh (now : ℚ) (s : SeqState)
    (h : ¬ now - s.last_time > TIMEOUT) : timeout_check now s = s := by
  unfold timeout_check
  rw [if_neg]
  rintro ⟨-, h2⟩
  exact h h2

theorem timeout_check_expired (now : ℚ) (s : SeqState)
    (h1 : s.status ≠ Status.idle) (h2 : now - s.last_time > TIMEOUT) :
    timeout_check now s = { s with status := Status.idle, digit := none } := by
  unfold timeout_check
  rw [if_pos ⟨h1, h2⟩]

theorem machine_step_idle (mapping : List (String × String)) (now : ℚ)
    (ev : KeyEvent) (s : SeqState) (hs : s.status = Status.idle) :
    machine_step mapping now ev s = (s, none) := by
  unfold machine_step
  rw [if_neg (by simp [hs]), if_neg (by simp [hs])]

theorem machine_step_wait_digit_digit (mapping : List (String × String))
    (now : ℚ) (ev : KeyEvent) (s : SeqState) (hs : s.status = Status.waitDigit)
    (hmem : ev.name ∉ (["ctrl", "right ctrl", "left ctrl", "c"] : List String))
    (hd : pyIsDigit ev.name = true) :
    machine_step mapping now ev s
      = ({ s with digit := some ev.name, status := Status.waitChar,
                  last_time := now }, none) := by
  unfold machine_step
  rw [if_pos hs, if_neg hmem, if_pos hd]

theorem machine_step_wait_char_one (mapping : List (String × String))
    (now : ℚ) (ev : KeyEvent) (s : SeqState) (hs : s.status = Status.waitChar)
    (hmem : ev.name ∉ (["ctrl", "right ctrl", "left ctrl"] : List String))
    (hlen : ev.name.length = 1) :
    machine_step mapping now ev s
      = ({ s with status := Status.idle, digit := none },
         dictLookup mapping (pyStrOpt s.digit ++ pyLower ev.name)) := by
  unfold machine_step
  rw [if_neg (by simp [hs]), if_pos hs, if_neg hmem, if_pos hlen]

theorem timeout_check_cases (now : ℚ) (s : SeqState) :
    timeout_check now s = s ∨
      timeout_check now s = { s with status := Status.idle, digit := none } := by
  unfold timeout_check
  split_ifs <;> simp

theorem machine_step_wait_digit_none (mapping : List (String × String))
    (now : ℚ) (ev : KeyEvent) (s : SeqState)
    (ih : s.status = Status.waitDigit → s.digit = none) :
    (machine_step mapping now ev s).1.status = Status.waitDigit →
      (machine_step mapping now ev s).1.digit = none := by
  unfold machine_step
  split_ifs <;> simp_all

theorem on_key_event_wait_digit_none (mapping : List (String × String))
    (now : ℚ) (ev : KeyEvent) (s : SeqState)
    (ih : s.status = Status.waitDigit → s.digit = none) :
    (on_key_event mapping now ev s).1.status = Status.waitDigit →
      (on_key_event mapping now ev s).1.digit = none := by
  unfold on_key_event
  split_ifs with h
  · exact ih
  · rcases timeout_check_cases now s with h2 | h2 <;> rw [h2]
    · exact machine_step_wait_digit_none _ _ _ _ ih
    · exact machine_step_wait_digit_none _ _ _ _ (fun _ => rfl)

theorem dictInsert_forall {P : String × String → Prop}
    (m : List (String × String)) (k v : String)
    (hm : ∀ p ∈ m, P p) (hk : P (k, v)) : ∀ p ∈ dictInsert m k v, P p := by
  unfold dictInsert
  split_ifs with h
  · intro p hp
    rcases List.mem_map.mp hp with ⟨q, hq, rfl⟩
    split_ifs with h2
    · exact hk
    · exact hm _ hq
  · intro p hp
    rcases List.mem_append.mp hp with h2 | h2
    · exact hm _ h2
    · rw [List.mem_singleton.mp h2]
      exact hk

theorem addFile_forall (baseDir digit : String) (m : List (String × String))
    (fn : String) (hd : pyIsDigit digit = true)
    (hm : ∀ p ∈ m, KeyOk p.1) : ∀ p ∈ addFile baseDir digit m fn, KeyOk p.1 := by
  intro p hp
  simp only [addFile] at hp
  split_ifs at hp with h1 h2
  · exact dictInsert_forall _ _ _ hm ⟨digit, _, rfl, hd, h2⟩ p hp
  · exact hm p hp
  · exact hm p hp

theorem foldl_addFile_forall (baseDir digit : String)
    (hd : pyIsDigit digit = true) :
    ∀ (files : List String) (m : List (String × String)),
      (∀ p ∈ m, KeyOk p.1) →
      ∀ p ∈ files.foldl (addFile baseDir digit) m, KeyOk p.1 := by
  intro files
  induction files with
  | nil => intro m hm; simpa using hm
  | cons f fs ih => intro m hm; exact ih _ (addFile_forall _ _ _ _ hd hm)

theorem addDir_forall (baseDir : String) (m : List (String × String))
    (item : DirEntry) (hm : ∀ p ∈ m, KeyOk p.1) :
    ∀ p ∈ addDir baseDir m item, KeyOk p.1 := by
  unfold addDir
  split_ifs with h
  · exact foldl_addFile_forall _ _ ((Bool.and_eq_true _ _).mp h).2 _ _ hm
  · exact hm

theorem foldl_addDir_forall (baseDir : String) :
    ∀ (entries : List DirEntry) (m : List (String × String)),
      (∀ p ∈ m, KeyOk p.1) →
      ∀ p ∈ entries.foldl (addDir baseDir) m, KeyOk p.1 := by
  intro entries
  induction entries with
  | nil => intro m hm; simpa using hm
  | cons e es ih => intro m hm; exact ih _ (addDir_forall _ _ _ hm)

theorem machine_step_wait_char_long (mapping : List (String × String))
    (now : ℚ) (ev : KeyEvent) (s : SeqState) (hs : s.status = Status.waitChar)
    (hmem : ev.name ∉ (["ctrl", "right ctrl", "left ctrl"] : List String))
    (hlen : ¬ ev.name.length = 1) :
    machine_step mapping now ev s = ({ s with status := Status.idle }, none) := by
  unfold machine_step
  rw [if_neg (by simp [hs]), if_pos hs, if_neg hmem, if_neg hlen]

/-- C1: happy path of the sequence state machine.  From IDLE, the Ctrl+C reset
puts the machine in WAIT_DIGIT; a key-down for digit 1 within the timeout
moves it to WAIT_CHAR with pending digit 1; a key-down for character a within
the timeout, with code 1a present in the mapping, invokes the dispatcher with
the path mapped to 1a and returns the status to IDLE. -/
theorem claim_happy_path (t0 t1 t2 : ℚ) (mapping : List (String × String))
    (p : String) (h1 : t1 - t0 ≤ TIMEOUT) (h2 : t2 - t1 ≤ TIMEOUT)
    (hm : dictLookup mapping "1a" = some p) :
    on_ctrl_c t0 initState = ⟨Status.waitDigit, none, t0⟩ ∧
    on_key_event mapping t1 ⟨"down", "1"⟩ ⟨Status.waitDigit, none, t0⟩
      = (⟨Status.waitChar, some "1", t1⟩, none) ∧
    on_key_event mapping t2 ⟨"down", "a"⟩ ⟨Status.waitChar, some "1", t1⟩
      = (⟨Status.idle, none, t1⟩, some p) := by
  refine ⟨rfl, ?_, ?_⟩
  · rw [on_key_event_down _ _ _ _ rfl,
        timeout_check_fresh _ _ (not_lt.mpr h1),
        machine_step_wait_digit_digit _ _ _ _ rfl (by decide) (by decide)]
  · rw [on_key_event_down _ _ _ _ rfl,
        timeout_check_fresh _ _ (not_lt.mpr h2),
        machine_step_wait_char_one _ _ _ _ rfl (by decide) (by decide)]
    have e : pyStrOpt (some "1") ++ pyLower "a" = "1a" := by decide
    rw [e, hm]

/-- C1 witness: the happy path run at concrete times 0, 1, 2 with the mapping
holding code 1a. -/
theorem claim_happy_path_witness :
    on_ctrl_c 0 initState = ⟨Status.waitDigit, none, 0⟩ ∧
    on_key_event [("1a", "p")] 1 ⟨"down", "1"⟩ ⟨Status.waitDigit, none, 0⟩
      = (⟨Status.waitChar, some "1", 1⟩, none) ∧
    on_key_event [("1a", "p")] 2 ⟨"down", "a"⟩ ⟨Status.waitChar, some "1", 1⟩
      = (⟨Status.idle, none, 1⟩, some "p") :=
  claim_happy_path 0 1 2 [("1a", "p")] "p" (by norm_num [TIMEOUT])
    (by norm_num [TIMEOUT]) (by decide)

/-- C2: the module-level configuration that selects BASE_DIR references the
global name sys, which no import of the file binds, so evaluating it raises
NameError instead of succeeding: control never reaches register_hotkeys or
main. -/
theorem claim_startup_name_error :
    startup_selects_base_dir
      = Except.error "NameError: name 'sys' is not defined" ∧
    module_imports.contains "sys" = false := ⟨rfl, by decide⟩

/-- C3 counterexample: after the reset trigger at time 0 and a key-down for
digit 1 at time 4 (more than 3.0 seconds later), the machine ends in IDLE with
no pending digit — the digit is not reprocessed into WAIT_CHAR as the claim
states. -/
theorem claim_timeout_cex :
    (on_key_event [("1a", "p")] 4 ⟨"down", "1"⟩ (on_ctrl_c 0 initState)).1
      = ⟨Status.idle, none, 0⟩ ∧
    (on_key_event [("1a", "p")] 4 ⟨"down", "1"⟩ (on_ctrl_c 0 initState)).1.status
      ≠ Status.waitChar ∧
    (on_key_event [("1a", "p")] 4 ⟨"down", "1"⟩ (on_ctrl_c 0 initState)).1.digit
      ≠ some "1" := by
  have e : on_key_event [("1a", "p")] 4 ⟨"down", "1"⟩ (on_ctrl_c 0 initState)
      = (⟨Status.idle, none, 0⟩, none) := by
    rw [show on_ctrl_c 0 initState = ⟨Status.waitDigit, none, 0⟩ from rfl,
        on_key_event_down _ _ _ _ rfl,
        timeout_check_expired _ _ (by decide)
          (by norm_num [TIMEOUT] : (4 : ℚ) - 0 > TIMEOUT),
        machine_step_idle _ _ _ _ rfl]
  rw [e]
  exact ⟨rfl, by decide, by decide⟩

/-- C3 amended: if the reset trigger fires at `t0` and the next key-down (the
digit 1) arrives at `t1` strictly more than TIMEOUT later, the timeout check
forces IDLE and clears the pending digit, and the digit is then evaluated in
IDLE, which produces no transition and no dispatch: the machine ends in IDLE
(not WAIT_CHAR — the digit is not reprocessed as a fresh sequence). -/
theorem claim_timeout_amended (t0 t1 : ℚ) (mapping : List (String × String))
    (h : t1 - t0 > TIMEOUT) :
    on_key_event mapping t1 ⟨"down", "1"⟩ (on_ctrl_c t0 initState)
      = (⟨Status.idle, none, t0⟩, none) := by
  rw [show on_ctrl_c t0 initState = ⟨Status.waitDigit, none, t0⟩ from rfl,
      on_key_event_down _ _ _ _ rfl,
      timeout_check_expired _ _ (by simp) h,
      machine_step_idle _ _ _ _ rfl]

/-- C3 amended witness: the timeout run at concrete times 0 and 4. -/
theorem claim_timeout_amended_witness :
    on_key_event [] 4 ⟨"down", "1"⟩ (on_ctrl_c 0 initState)
      = (⟨Status.idle, none, 0⟩, none) :=
  claim_timeout_amended 0 4 [] (by norm_num [TIMEOUT])

/-- C4 counterexample: the claimed invariant fails.  The state with status
IDLE and pending digit 1 is reachable (Ctrl+C at time 0, digit 1 at time 1,
then the multi-character key name space at time 2: the WAIT_CHAR reset for a
key name that is not exactly one character sets status to IDLE without
clearing the pending digit). -/
theorem claim_state_invariant_cex :
    Reachable ⟨Status.idle, some "1", 1⟩ ∧
    (⟨Status.idle, some "1", 1⟩ : SeqState).digit ≠ none ∧
    (⟨Status.idle, some "1", 1⟩ : SeqState).status ≠ Status.waitChar := by
  refine ⟨?_, by decide, by decide⟩
  have r1 : Reachable (⟨Status.waitDigit, none, 0⟩ : SeqState) :=
    Reachable.ctrl 0 Reachable.init
  have e2 : (on_key_event [] 1 ⟨"down", "1"⟩ ⟨Status.waitDigit, none, 0⟩).1
      = ⟨Status.waitChar, some "1", 1⟩ := by
    rw [on_key_event_down _ _ _ _ rfl,
        timeout_check_fresh _ _ (by norm_num [TIMEOUT] : ¬ (1 : ℚ) - 0 > TIMEOUT),
        machine_step_wait_digit_digit _ _ _ _ rfl (by decide) (by decide)]
  have r2 : Reachable (⟨Status.waitChar, some "1", 1⟩ : SeqState) := by
    have h := Reachable.key [] 1 ⟨"down", "1"⟩ r1
    rwa [e2] at h
  have e3 : (on_key_event [] 2 ⟨"down", "space"⟩
      ⟨Status.waitChar, some "1", 1⟩).1 = ⟨Status.idle, some "1", 1⟩ := by
    rw [on_key_event_down _ _ _ _ rfl,
        timeout_check_fresh _ _ (by norm_num [TIMEOUT] : ¬ (2 : ℚ) - 1 > TIMEOUT),
        machine_step_wait_char_long _ _ _ _ rfl (by decide) (by decide)]
  have h := Reachable.key [] 2 ⟨"down", "space"⟩ r2
  rwa [e3] at h

/-- C4 amended: in every reachable state the pending digit is None whenever
the status is WAIT_DIGIT (equivalently, a non-None digit implies status
WAIT_CHAR or IDLE).  The stronger claimed invariant — digit non-None only in
WAIT_CHAR — fails, because the WAIT_CHAR reset for a key name that is not
exactly one character sets status to IDLE without clearing the digit. -/
theorem claim_state_invariant_amended (s : SeqState) (hs : Reachable s) :
    s.status = Status.waitDigit → s.digit = none := by
  induction hs with
  | init => intro h; simp [initState] at h
  | ctrl now hr ih => intro h; rfl
  | key mapping now ev hr ih => exact on_key_event_wait_digit_none _ _ _ _ ih

/-- C4 amended witness: the amended invariant applied to the reachable
WAIT_DIGIT state right after a Ctrl+C reset. -/
theorem claim_state_invariant_amended_witness :
    (on_ctrl_c 0 initState).digit = none :=
  claim_state_invariant_amended (on_ctrl_c 0 initState)
    (Reachable.ctrl 0 Reachable.init) rfl

/-- C5: indexing correctness.  A root with subdirectory 1 containing 1a.txt,
1x.txt and 2a.txt yields exactly the codes 1a and 1x mapped to those files
(2a.txt is excluded: its base name does not start with the directory digit),
and the build of an empty root returns an empty table rather than failing. -/
theorem claim_indexing :
    load_files_mapping "base" [⟨"1", true, ["1a.txt", "1x.txt", "2a.txt"]⟩]
      = [("1a", "base/1/1a.txt"), ("1x", "base/1/1x.txt")] ∧
    load_files_mapping "base" [] = [] := ⟨by decide, rfl⟩

/-- C6 counterexample: the mapping key inserted for file 1ab.txt in directory
1 is 1ab, which is not a single numeral followed by a single lowercase
letter. -/
theorem claim_code_shape_cex :
    load_files_mapping "base" [⟨"1", true, ["1ab.txt"]⟩]
      = [("1ab", "base/1/1ab.txt")] ∧
    spec_code_shape "1ab" = false := by decide

/-- C6 amended: every key load_files_mapping inserts is the owning directory
name (a non-empty all-digit string, possibly several numerals long) followed
by the lowercasing of a non-empty remainder of the base name; the digit part
need not be a single numeral and the remainder need not be a single letter. -/
theorem claim_code_shape_amended (baseDir : String) (entries : List DirEntry) :
    ∀ kv ∈ load_files_mapping baseDir entries, KeyOk kv.1 :=
  foldl_addDir_forall baseDir entries [] (by simp)

/-- C6 amended witness: the key shape at the concrete entry produced for
1a.txt in directory 1. -/
theorem claim_code_shape_amended_witness : KeyOk "1a" :=
  claim_code_shape_amended "base" [⟨"1", true, ["1a.txt"]⟩]
    ("1a", "base/1/1a.txt") (by decide)

/-- C7 counterexample: the index can produce the code 12a (directory 12, file
12a.txt), and register_hotkeys then registers the chord ctrl+c+1+2a — built
from the first character and the remainder of the key — not ctrl+c+12+a as
the claim (full digit part, full char part) requires. -/
theorem claim_chord_format_cex :
    load_files_mapping "base" [⟨"12", true, ["12a.txt"]⟩]
      = [("12a", "base/12/12a.txt")] ∧
    register_hotkeys [("12a", "base/12/12a.txt")]
      = [("ctrl+c+1+2a", HotkeyAction.copyFile "base/12/12a.txt"),
         ("ctrl+c", HotkeyAction.ctrlCReset)] ∧
    ("ctrl+c+1+2a" : String) ≠ "ctrl+c+12+a" := by decide

/-- C7 amended: for every mapping, register_hotkeys registers exactly one
chord per code, of the form ctrl+c+(first character of the code)+(remainder
of the code) — which equals the claimed full-digit-part/full-char-part form
exactly when the digit part is a single numeral — plus the one standing
ctrl+c trigger bound to the reset action. -/
theorem claim_chord_format_amended (mapping : List (String × String)) :
    ("ctrl+c", HotkeyAction.ctrlCReset) ∈ register_hotkeys mapping ∧
    (∀ kv ∈ mapping,
      ("ctrl+c+" ++ pyTake kv.1 1 ++ "+" ++ pyDrop kv.1 1,
        HotkeyAction.copyFile kv.2) ∈ register_hotkeys mapping) ∧
    (register_hotkeys mapping).length = mapping.length + 1 := by
  unfold register_hotkeys
  refine ⟨?_, ?_, ?_⟩
  · exact List.mem_append_right _ (List.mem_singleton.mpr rfl)
  · intro kv hkv
    exact List.mem_append_left _ (List.mem_map.mpr ⟨kv, hkv, rfl⟩)
  · simp

/-- C7 amended witness: the registrations for the one-entry mapping holding
code 1a. -/
theorem claim_chord_format_amended_witness :
    ("ctrl+c+" ++ pyTake "1a" 1 ++ "+" ++ pyDrop "1a" 1,
      HotkeyAction.copyFile "p") ∈ register_hotkeys [("1a", "p")] ∧
    ("ctrl+c", HotkeyAction.ctrlCReset) ∈ register_hotkeys [("1a", "p")] :=
  ⟨(claim_chord_format_amended [("1a", "p")]).2.1 ("1a", "p") (by decide),
   (claim_chord_format_amended [("1a", "p")]).1⟩

/-- C8: case-normalization round trip.  The file 1A.txt in directory 1 is
indexed under the lowercased code 1a, and in WAIT_CHAR with pending digit 1 a
key event named uppercase A is lowercased before lookup, matches that entry
and dispatches its path. -/
theorem claim_case_normalization :
    load_files_mapping "base" [⟨"1", true, ["1A.txt"]⟩]
      = [("1a", "base/1/1A.txt")] ∧
    on_key_event [("1a", "base/1/1A.txt")] 2 ⟨"down", "A"⟩
        ⟨Status.waitChar, some "1", 1⟩
      = (⟨Status.idle, none, 1⟩, some "base/1/1A.txt") := by
  refine ⟨by decide, ?_⟩
  rw [on_key_event_down _ _ _ _ rfl,
      timeout_check_fresh _ _ (by norm_num [TIMEOUT] : ¬ (2 : ℚ) - 1 > TIMEOUT),
      machine_step_wait_char_one _ _ _ _ rfl (by decide) (by decide)]
  have e : pyStrOpt (some "1") ++ pyLower "A" = "1a" := by decide
  rw [e]
  decide

/-- C9: dispatch error containment.  For every file system and path,
copy_file_content returns normally in both outcomes, leaves the sequence
state unchanged, hands the full content to the clipboard on a successful
read, and on any read or decode failure delivers nothing and logs the
offending path. -/
theorem claim_dispatch_containment (fs : String → Except String String)
    (st : SeqState) (p : String) :
    (copy_file_content fs st p).state = st ∧
    (∀ c, fs p = Except.ok c →
      copy_file_content fs st p
        = ⟨st, some c, "Copied content from " ++ basename p⟩) ∧
    (∀ e, fs p = Except.error e →
      copy_file_content fs st p
        = ⟨st, none, "Failed to copy " ++ p ++ ": " ++ e⟩) := by
  refine ⟨?_, ?_, ?_⟩
  · cases h : fs p <;> simp [copy_file_content, h]
  · intro c hc; simp [copy_file_content, hc]
  · intro e he; simp [copy_file_content, he]

/-- C9 witness: dispatch on a file system where every read fails. -/
theorem claim_dispatch_containment_witness :
    (copy_file_content (fun _ => Except.error "boom") initState "q.txt").state
      = initState ∧
    copy_file_content (fun _ => Except.error "boom") initState "q.txt"
      = ⟨initState, none, "Failed to copy " ++ "q.txt" ++ ": " ++ "boom"⟩ :=
  ⟨(claim_dispatch_containment _ _ _).1,
   (claim_dispatch_containment _ _ _).2.2 "boom" rfl⟩

/-- C10: in WAIT_CHAR any key-down whose name is exactly one character —
including a digit — forms the candidate code pending-digit ++ lowercased key
and dispatches per the mapping lookup; and a file 15.txt in directory 1 is
indexed under the digit-digit code 15, so such codes are both constructible
and matchable. -/
theorem claim_wait_char_any_single (d : String)
    (mapping : List (String × String)) (t0 t1 : ℚ) (ev : KeyEvent)
    (hev : ev.event_type = "down")
    (hmem : ev.name ∉ (["ctrl", "right ctrl", "left ctrl"] : List String))
    (hlen : ev.name.length = 1) (hto : ¬ t1 - t0 > TIMEOUT) :
    on_key_event mapping t1 ev ⟨Status.waitChar, some d, t0⟩
      = (⟨Status.idle, none, t0⟩,
         dictLookup mapping (d ++ pyLower ev.name)) ∧
    load_files_mapping "base" [⟨"1", true, ["15.txt"]⟩]
      = [("15", "base/1/15.txt")] := by
  refine ⟨?_, by decide⟩
  rw [on_key_event_down _ _ _ _ hev, timeout_check_fresh _ _ hto,
      machine_step_wait_char_one _ _ _ _ rfl hmem hlen]
  rfl

/-- C10 witness: pending digit 1, key-down 5 at time 1, mapping holding the
digit-digit code 15. -/
theorem claim_wait_char_any_single_witness :
    on_key_event [("15", "base/1/15.txt")] 1 ⟨"down", "5"⟩
        ⟨Status.waitChar, some "1", 0⟩
      = (⟨Status.idle, none, 0⟩,
         dictLookup [("15", "base/1/15.txt")] ("1" ++ pyLower "5")) ∧
    load_files_mapping "base" [⟨"1", true, ["15.txt"]⟩]
      = [("15", "base/1/15.txt")] :=
  claim_wait_char_any_single "1" [("15", "base/1/15.txt")] 0 1 ⟨"down", "5"⟩
    rfl (by decide) (by decide) (by norm_num [TIMEOUT])
